import Mathlib

/-!
Shallow embedding of the client-side state layer of a blog application:
the posts slice (fetch/filter pipeline, optimistic like toggling, delete,
update), the comments slice, boundary validation, and the dual write path
of the create thunks.  JavaScript strings are modelled through their
character lists, JavaScript numbers as `Int` (with `Option Int` where NaN
matters), and the external document store as an oracle function from
queries to results.
-/

namespace Blog

/- ### JavaScript string primitives (ASCII case folding) -/

/-- Model of `String.prototype.toLowerCase` (ASCII fragment). -/
def jsLower (s : String) : String := ⟨s.data.map Char.toLower⟩

/-- Model of `String.prototype.startsWith`. -/
def jsStartsWith (s pre : String) : Bool := pre.data.isPrefixOf s.data

/-- Model of `String.prototype.trim`. -/
def jsTrim (s : String) : String :=
  ⟨((s.data.dropWhile Char.isWhitespace).reverse.dropWhile Char.isWhitespace).reverse⟩

/-- Boolean infix test on character lists, used to model `String.prototype.includes`. -/
def isInfixB (needle : List Char) : List Char → Bool
  | [] => needle.isEmpty
  | c :: cs => needle.isPrefixOf (c :: cs) || isInfixB needle cs

/-- Model of `String.prototype.includes`. -/
def jsIncludes (s sub : String) : Bool := isInfixB sub.data s.data

/-- Model of the JavaScript `.length` of the strings appearing here
(code-point count; identical to the UTF-16 length on the basic plane). -/
def jsLen (s : String) : Nat := s.data.length

/-- JavaScript truthiness of a string: non-empty. -/
def strTruthy (s : String) : Bool := !s.data.isEmpty

/- ### Timestamps as they appear in cached entities

After the fetch mapping, `createdAt` is either an ISO string obtained from
`toDate().toISOString()` (which reparses to the original milliseconds), some
other raw string together with its `new Date(s).getTime()` result (`none`
standing for NaN), a raw number, a store-native timestamp object exposing
`toMillis`, or absent. -/

inductive CreatedAt where
  /-- ISO-8601 string serialized from a store timestamp of `millis` ms. -/
  | iso (millis : Int)
  /-- Any other string; `parsed` is `new Date(s).getTime()`, `none` = NaN. -/
  | str (s : String) (parsed : Option Int)
  /-- A raw number of milliseconds. -/
  | num (n : Int)
  /-- A store-native timestamp object with a `toMillis` method. -/
  | tsObj (millis : Int)
  /-- `undefined` / `null`. -/
  | missing
deriving DecidableEq, Repr

/-- The value `va` computed by the posts sort comparator (postsSlice lines
90-96): `ta && typeof ta.toMillis === 'function' ? ta.toMillis() :
(ta ? new Date(ta).getTime() : 0)`.  `none` models NaN. -/
def sortKey : CreatedAt → Option Int
  | .iso m => some m
  | .str s parsed => if strTruthy s then parsed else some 0
  | .num n => if n = 0 then some 0 else some n
  | .tsObj m => some m
  | .missing => some 0

/- ### Entities -/

structure Post where
  id : String
  title : String
  content : String
  tags : List String
  likes : Int
  authorId : String
  authorName : String
  createdAt : CreatedAt
  updatedAt : CreatedAt
deriving DecidableEq, Repr

structure Comment where
  id : String
  content : String
  postId : String
  authorId : String
  authorName : String
  createdAt : CreatedAt
  updatedAt : CreatedAt
deriving DecidableEq, Repr

/- ### Client-side sort of the posts list (postsSlice lines 89-96)

`Array.prototype.sort` with comparator `(a, b) => vb - va` yields, for a
consistent comparator, the stable descending reordering by the key above.
It is modelled by `insertionSort` under the total preorder `createdDesc`.
The model is faithful only when every key is defined (no NaN): with a NaN
the JavaScript comparator is inconsistent and the sort order unspecified,
while the model arbitrarily totalizes NaN to 0. -/

/-- Totalized sort key of a post (NaN arbitrarily mapped to 0; see above). -/
def sortKeyD (p : Post) : Int := (sortKey p.createdAt).getD 0

/-- `a` may come before `b` in the descending client-side sort. -/
def createdDesc (a b : Post) : Prop := sortKeyD b ≤ sortKeyD a

instance : DecidableRel createdDesc := fun a b =>
  inferInstanceAs (Decidable (sortKeyD b ≤ sortKeyD a))

instance : IsTotal Post createdDesc := ⟨fun a b => le_total (sortKeyD b) (sortKeyD a)⟩

instance : IsTrans Post createdDesc := ⟨fun _ _ _ h h' => le_trans h' h⟩

def clientSortPosts (l : List Post) : List Post := List.insertionSort createdDesc l

/- ### Raw store documents and the fetch mapping (postsSlice lines 38-53) -/

/-- The `createdAt` / `updatedAt` field of a raw document. -/
inductive RawTs where
  /-- A store-native timestamp (has `toDate`); `toDate().toISOString()`
  serializes it to an ISO string reparsing to `millis`. -/
  | fsTimestamp (millis : Int)
  /-- A plain string with its `new Date` parse result (`none` = NaN). -/
  | rawStr (s : String) (parsed : Option Int)
  /-- A plain number. -/
  | rawNum (n : Int)
  /-- Field absent / null. -/
  | absent
deriving DecidableEq, Repr

/-- The `likes` field of a raw document, as seen by `typeof`. -/
inductive RawLikes where
  | num (n : Int)
  | nonNumber
deriving DecidableEq, Repr

structure RawDoc where
  id : String
  title : String
  content : String
  tagsField : Option (List String)
  likesField : RawLikes
  authorId : String
  authorName : String
  createdAt : RawTs
  updatedAt : RawTs
deriving DecidableEq, Repr

/-- `data?.createdAt?.toDate ? data.createdAt.toDate().toISOString() : data?.createdAt`. -/
def convertTs : RawTs → CreatedAt
  | .fsTimestamp m => .iso m
  | .rawStr s p => .str s p
  | .rawNum n => .num n
  | .absent => .missing

/-- The per-document mapping of `fetchPosts` (lines 42-52): tags default to
`[]` unless an array, likes default to `0` unless a number. -/
def docToPost (d : RawDoc) : Post :=
  { id := d.id
    title := d.title
    content := d.content
    tags := d.tagsField.getD []
    likes := match d.likesField with | .num n => n | .nonNumber => 0
    authorId := d.authorId
    authorName := d.authorName
    createdAt := convertTs d.createdAt
    updatedAt := convertTs d.updatedAt }

/- ### Store queries (an oracle models `getDocs`) -/

inductive QueryConstraint where
  /-- `where('authorName', '==', v)` -/
  | authorNameEq (v : String)
  /-- `where('tags', 'array-contains', v)` -/
  | tagsArrayContains (v : String)
  /-- `where('postId', '==', v)` -/
  | postIdEq (v : String)
deriving DecidableEq, Repr

structure FireQuery where
  coll : String
  constraints : List QueryConstraint
  orderedByCreatedAtDesc : Bool
deriving DecidableEq, Repr

structure JsError where
  message : String
deriving DecidableEq, Repr

instance {ε α : Type} [DecidableEq ε] [DecidableEq α] : DecidableEq (Except ε α) := fun a b =>
  match a, b with
  | .error e, .error f =>
      if h : e = f then .isTrue (congrArg Except.error h)
      else .isFalse fun hc => h (Except.error.inj hc)
  | .error _, .ok _ => .isFalse Except.noConfusion
  | .ok _, .error _ => .isFalse Except.noConfusion
  | .ok x, .ok y =>
      if h : x = y then .isTrue (congrArg Except.ok h)
      else .isFalse fun hc => h (Except.ok.inj hc)

/-- The error test of the catch blocks (postsSlice line 27, commentsSlice
line 23): `message.includes('index') || message.includes('FAILED_PRECONDITION')`. -/
def isIndexRequiredError (e : JsError) : Bool :=
  jsIncludes e.message "index" || jsIncludes e.message "FAILED_PRECONDITION"

/-- Truthiness of `filter?.trim()`: present and non-blank. -/
def filterApplied : Option String → Bool
  | some s => strTruthy (jsTrim s)
  | none => false

/-- The `baseConstraints` array built in `fetchPosts` (lines 11-18). -/
def baseConstraints (authorFilter tagFilter : Option String) : List QueryConstraint :=
  (if filterApplied authorFilter then [.authorNameEq (jsTrim (authorFilter.getD ""))] else [])
    ++ (if filterApplied tagFilter then [.tagsArrayContains (jsTrim (tagFilter.getD ""))] else [])

/- ### The fetchPosts pipeline (postsSlice lines 7-101)

`store` is the oracle for `getDocs`: it maps a query to either a snapshot
(document list) or a thrown error. -/

/-- Snapshot acquisition (lines 20-34): try the query with `orderBy`; on an
index-required error retry the same constraints without `orderBy`; rethrow
any other error. -/
def fetchPostsGetSnapshot (store : FireQuery → Except JsError (List RawDoc))
    (authorFilter tagFilter : Option String) : Except JsError (List RawDoc) :=
  let cs := baseConstraints authorFilter tagFilter
  match store ⟨"posts", cs, true⟩ with
  | .ok snap => .ok snap
  | .error e =>
      if isIndexRequiredError e then store ⟨"posts", cs, false⟩ else .error e

/-- The client-side fallback predicate (lines 77-83): case-insensitive
prefix match on the author name and on any tag; both must hold when both
filters are present. -/
def fallbackMatch (authorFilter tagFilter : Option String) (p : Post) : Bool :=
  let authorTerm := jsLower (jsTrim (authorFilter.getD ""))
  let tagTerm := jsLower (jsTrim (tagFilter.getD ""))
  let matchesAuthor := if strTruthy authorTerm then
    jsStartsWith (jsLower p.authorName) authorTerm else true
  let matchesTag := if strTruthy tagTerm then
    p.tags.any (fun t => jsStartsWith (jsLower t) tagTerm) else true
  matchesAuthor && matchesTag

/-- The whole `fetchPosts` thunk (lines 7-101).  After the snapshot is
mapped, an empty result under applied filters triggers one unfiltered query
whose documents are filtered client-side (an error there is swallowed and
the empty result kept, lines 84-86); the final list is always sorted
client-side by `createdAt` descending. -/
def fetchPostsModel (store : FireQuery → Except JsError (List RawDoc))
    (authorFilter tagFilter : Option String) : Except JsError (List Post) :=
  match fetchPostsGetSnapshot store authorFilter tagFilter with
  | .error e => .error e
  | .ok snap =>
      let fetchedPosts := snap.map docToPost
      let hasAnyApplied := filterApplied authorFilter || filterApplied tagFilter
      let resultPosts :=
        if hasAnyApplied && fetchedPosts.isEmpty then
          match store ⟨"posts", [], false⟩ with
          | .ok allSnap => (allSnap.map docToPost).filter (fallbackMatch authorFilter tagFilter)
          | .error _ => fetchedPosts
        else fetchedPosts
      .ok (clientSortPosts resultPosts)

/- ### The fetchComments pipeline (commentsSlice lines 7-60) -/

structure RawCommentDoc where
  id : String
  content : String
  postId : String
  authorId : String
  authorName : String
  createdAt : RawTs
  updatedAt : RawTs
deriving DecidableEq, Repr

/-- The per-document mapping of `fetchComments` (lines 38-47). -/
def docToComment (d : RawCommentDoc) : Comment :=
  { id := d.id
    content := d.content
    postId := d.postId
    authorId := d.authorId
    authorName := d.authorName
    createdAt := convertTs d.createdAt
    updatedAt := convertTs d.updatedAt }

/-- Value of `new Date(c.createdAt).getTime()` in the comments sort
comparator (lines 51-55); `none` models NaN.  Unlike the posts comparator
there is no falsiness guard, so an absent timestamp is NaN here. -/
def commentSortKey : CreatedAt → Option Int
  | .iso m => some m
  | .str _ parsed => parsed
  | .num n => some n
  | .tsObj _ => none
  | .missing => none

def commentSortKeyD (c : Comment) : Int := (commentSortKey c.createdAt).getD 0

def commentCreatedDesc (a b : Comment) : Prop := commentSortKeyD b ≤ commentSortKeyD a

instance : DecidableRel commentCreatedDesc := fun a b =>
  inferInstanceAs (Decidable (commentSortKeyD b ≤ commentSortKeyD a))

/-- Snapshot acquisition of `fetchComments` (lines 12-30): same
index-required fallback as the posts pipeline, with the same `postId`
equality constraint re-issued without `orderBy`. -/
def fetchCommentsGetSnapshot (store : FireQuery → Except JsError (List RawCommentDoc))
    (postId : String) : Except JsError (List RawCommentDoc) :=
  match store ⟨"comments", [.postIdEq postId], true⟩ with
  | .ok snap => .ok snap
  | .error e =>
      if isIndexRequiredError e then store ⟨"comments", [.postIdEq postId], false⟩
      else .error e

/-- The whole `fetchComments` thunk (lines 7-60). -/
def fetchCommentsModel (store : FireQuery → Except JsError (List RawCommentDoc))
    (postId : String) : Except JsError (String × List Comment) :=
  match fetchCommentsGetSnapshot store postId with
  | .error e => .error e
  | .ok snap =>
      let fetched := snap.map docToComment
      .ok (postId, List.insertionSort commentCreatedDesc fetched)

/- ### Posts slice state and reducers (postsSlice lines 228-368) -/

structure PostsState where
  posts : List Post
  likedPostIds : List String
  loading : Bool
  error : Option String
deriving DecidableEq, Repr

def initialPostsState : PostsState :=
  { posts := [], likedPostIds := [], loading := false, error := none }

/-- Mutation through `state.posts.find(p => p.id === postId)`: only the
first post with the given id is updated. -/
def updateFirstPost (pid : String) (f : Post → Post) : List Post → List Post
  | [] => []
  | p :: ps => if p.id = pid then f p :: ps else p :: updateFirstPost pid f ps

/-- `post.likes = Math.max(0, (post.likes || 0) + increment)`; on the `Int`
model `(likes || 0)` is the identity. -/
def applyLikeDelta (inc : Int) (p : Post) : Post :=
  { p with likes := max 0 (p.likes + inc) }

/-- `if (!state.likedPostIds.includes(postId)) state.likedPostIds.push(postId)`. -/
def addIfAbsent (pid : String) (l : List String) : List String :=
  if pid ∈ l then l else l ++ [pid]

/-- The `optimisticToggleLike` reducer (lines 266-280). -/
def optimisticToggleLike (pid : String) (inc : Int) (isLiked : Bool)
    (s : PostsState) : PostsState :=
  { s with
    posts := updateFirstPost pid (applyLikeDelta inc) s.posts
    likedPostIds :=
      if isLiked then addIfAbsent pid s.likedPostIds
      else s.likedPostIds.filter (· ≠ pid) }

/-- The `revertOptimisticLike` reducer (lines 282-296): subtracts the same
increment, floored at zero, and inverts the membership change. -/
def revertOptimisticLike (pid : String) (inc : Int) (isLiked : Bool)
    (s : PostsState) : PostsState :=
  { s with
    posts := updateFirstPost pid (fun p => { p with likes := max 0 (p.likes - inc) }) s.posts
    likedPostIds :=
      if isLiked then s.likedPostIds.filter (· ≠ pid)
      else addIfAbsent pid s.likedPostIds }

/-- The `toggleLike.fulfilled` reducer (lines 346-360); its body coincides
with `optimisticToggleLike`, so a fulfilled toggle applies the increment a
second time on top of the optimistic application. -/
def toggleLikeFulfilled (pid : String) (inc : Int) (isLiked : Bool)
    (s : PostsState) : PostsState :=
  { s with
    posts := updateFirstPost pid (applyLikeDelta inc) s.posts
    likedPostIds :=
      if isLiked then addIfAbsent pid s.likedPostIds
      else s.likedPostIds.filter (· ≠ pid) }

/-- `fetchPosts.pending` (lines 301-304). -/
def fetchPostsPending (s : PostsState) : PostsState :=
  { s with loading := true, error := none }

/-- `fetchPosts.fulfilled` (lines 305-308). -/
def fetchPostsFulfilled (payload : List Post) (s : PostsState) : PostsState :=
  { s with loading := false, posts := payload }

/-- `action.error.message || 'default'`: an absent or empty message falls
back to the default. -/
def errMessageOr (msg : Option String) (dflt : String) : String :=
  match msg with
  | some m => if strTruthy m then m else dflt
  | none => dflt

/-- `fetchPosts.rejected` (lines 309-312). -/
def fetchPostsRejected (msg : Option String) (s : PostsState) : PostsState :=
  { s with loading := false, error := some (errMessageOr msg "Failed to fetch posts") }

/-- Partial update payload of the `updatePost` thunk (`Partial Post`). -/
structure PostUpdates where
  title : Option String := none
  content : Option String := none
  tags : Option (List String) := none
  likes : Option Int := none
deriving DecidableEq, Repr

/-- The object spread `{ ...post, ...updates }`. -/
def applyUpdates (u : PostUpdates) (p : Post) : Post :=
  { p with
    title := u.title.getD p.title
    content := u.content.getD p.content
    tags := u.tags.getD p.tags
    likes := u.likes.getD p.likes }

/-- `updatePost.fulfilled` (lines 327-333): replace the first post with the
given id by its spread with the updates. -/
def updatePostFulfilled (pid : String) (u : PostUpdates) (s : PostsState) : PostsState :=
  { s with posts := updateFirstPost pid (applyUpdates u) s.posts }

/-- The update payload built by the only `updatePost` dispatch site,
`PostList.submitEditPost` (lines 128-160): trimmed title and content,
cleaned tags, and `likes: Math.max(0, Number(editData.likes || 0))`. -/
def editPostUpdates (title content : String) (tags : List String) (likesInput : Int) :
    PostUpdates :=
  { title := some (jsTrim title)
    content := some (jsTrim content)
    tags := some ((tags.map jsTrim).filter strTruthy)
    likes := some (max 0 likesInput) }

/-- `deletePost.fulfilled` (lines 338-341). -/
def deletePostFulfilled (pid : String) (s : PostsState) : PostsState :=
  { s with
    posts := s.posts.filter fun p => p.id ≠ pid
    likedPostIds := s.likedPostIds.filter (· ≠ pid) }

/-- `fetchLikedStates.fulfilled` (lines 365-367). -/
def fetchLikedStatesFulfilled (payload : List String) (s : PostsState) : PostsState :=
  { s with likedPostIds := payload }

/-- Payload computed by the `fetchLikedStates` thunk (lines 213-226):
`posts.map(p => liked ? p.id : null)` followed by `.filter(Boolean)`, which
drops the nulls and any empty-string id. -/
def fetchLikedStatesPayload (posts : List Post) (liked : String → Bool) : List String :=
  let results : List (Option String) := posts.map fun p => if liked p.id then some p.id else none
  (results.filterMap fun x => x).filter strTruthy

/- ### The PostList like handler (PostList lines 180-199)

`handleToggleLike` reads `isLiked` from the current `likedPostIds`,
dispatches `optimisticToggleLike` with `increment = isLiked ? -1 : 1` and
`isLiked := !isLiked`, then awaits the `toggleLike` thunk; on success the
thunk's payload `{postId, increment, isLiked: !isLiked}` is applied by
`toggleLikeFulfilled`, on failure `revertOptimisticLike` is dispatched with
the same arguments as the optimistic action. -/

def handleToggleLikeSuccess (pid : String) (s : PostsState) : PostsState :=
  let isLiked : Bool := decide (pid ∈ s.likedPostIds)
  let inc : Int := if isLiked then -1 else 1
  toggleLikeFulfilled pid inc (!isLiked) (optimisticToggleLike pid inc (!isLiked) s)

def handleToggleLikeFailure (pid : String) (s : PostsState) : PostsState :=
  let isLiked : Bool := decide (pid ∈ s.likedPostIds)
  let inc : Int := if isLiked then -1 else 1
  revertOptimisticLike pid inc (!isLiked) (optimisticToggleLike pid inc (!isLiked) s)

/- ### Comments slice state and reducers (commentsSlice lines 146-235) -/

structure CommentsState where
  /-- `Record(postId, Comment[])`, modelled as an association list. -/
  commentsByPost : List (String × List Comment)
  loading : Bool
  error : Option String
deriving DecidableEq, Repr

/-- The `clearCommentsForPost` reducer (lines 163-165):
`delete state.commentsByPost[postId]`. -/
def clearCommentsForPost (pid : String) (s : CommentsState) : CommentsState :=
  { s with commentsByPost := s.commentsByPost.filter fun kv => kv.1 ≠ pid }

/-- `fetchComments.rejected` (commentsSlice lines 175-178). -/
def fetchCommentsRejected (msg : Option String) (s : CommentsState) : CommentsState :=
  { s with loading := false, error := some (errMessageOr msg "Failed to fetch comments") }

/- ### Combined application state

The store combines the two slices.  `deletePost.fulfilled` is handled only
by the posts slice; the comments slice registers no handler for it, and the
delete flow in `PostList.handleDeletePost` dispatches nothing else. -/

structure AppState where
  postsState : PostsState
  commentsState : CommentsState
deriving DecidableEq, Repr

/-- Effect on the whole store of a successful `deletePost` dispatch: the
posts-slice handler runs; the comments slice is untouched. -/
def deletePostFulfilledApp (pid : String) (s : AppState) : AppState :=
  { s with postsState := deletePostFulfilled pid s.postsState }

/- ### Boundary validation (PostForm and CommentForm)

The zod schemas record every violated rule in order; `flatten()` followed
by `[0]` surfaces the first message per field, which the chains below
compute directly. -/

/-- `z.string().min(1).min(5).max(100)` of the post title (PostForm lines 15-18). -/
def validateTitle (t : String) : Option String :=
  if jsLen t < 1 then some "Заголовок поста обязателен"
  else if jsLen t < 5 then some "Заголовок должен содержать минимум 5 символов"
  else if jsLen t > 100 then some "Заголовок не должен превышать 100 символов"
  else none

/-- `z.string().min(1).min(10).max(5000)` of the post content (PostForm lines 19-22). -/
def validateContent (c : String) : Option String :=
  if jsLen c < 1 then some "Основной текст поста обязателен"
  else if jsLen c < 10 then some "Основной текст должен содержать минимум 10 символов"
  else if jsLen c > 5000 then some "Основной текст не должен превышать 5000 символов"
  else none

/-- `z.array(z.string()).min(1).max(10).refine(every tag non-blank)`
(PostForm lines 23-28). -/
def validateTags (tags : List String) : Option String :=
  if tags.length < 1 then some "Добавьте хотя бы один тег"
  else if tags.length > 10 then some "Максимум 10 тегов"
  else if tags.any (fun tag => !strTruthy (jsTrim tag)) then some "Теги не могут быть пустыми"
  else none

structure PostFieldErrors where
  title : Option String
  content : Option String
  tags : Option String
deriving DecidableEq, Repr

/-- Field errors surfaced from `postSchema.safeParse` via
`flatten().fieldErrors` (PostForm submit handler). -/
def postSchemaCheck (title content : String) (tags : List String) : PostFieldErrors :=
  { title := validateTitle title
    content := validateContent content
    tags := validateTags tags }

/-- The payload handed to the `createPost` thunk on a valid submission. -/
structure CreatePostReq where
  title : String
  content : String
  tags : List String
  authorId : String
  authorName : String
deriving DecidableEq, Repr

/-- The validation part of `PostForm.onSubmit`: `safeParse`, early return
with field-scoped errors on failure, then the residual cleaned-tags check;
only a `.ok` result reaches `dispatch(createPost(...))`, so a `.error`
value means no store write was issued. -/
def submitPost (title content : String) (tags : List String)
    (authorId authorName : String) : Except PostFieldErrors CreatePostReq :=
  let e := postSchemaCheck title content tags
  if e.title.isSome || e.content.isSome || e.tags.isSome then .error e
  else
    let cleanedTags := tags.filter fun tag => strTruthy (jsTrim tag)
    if cleanedTags.isEmpty then
      .error { title := none, content := none, tags := some "Добавьте хотя бы один тег" }
    else
      .ok { title := title, content := content, tags := cleanedTags
            authorId := authorId, authorName := authorName }

/-- `z.string().min(1).min(5).max(1000)` of a comment (CommentForm lines 10-15). -/
def validateCommentContent (c : String) : Option String :=
  if jsLen c < 1 then some "Комментарий не может быть пустым"
  else if jsLen c < 5 then some "Комментарий должен содержать минимум 5 символов"
  else if jsLen c > 1000 then some "Комментарий не должен превышать 1000 символов"
  else none

structure CommentFieldErrors where
  content : Option String
deriving DecidableEq, Repr

structure CreateCommentReq where
  content : String
  postId : String
  authorId : String
  authorName : String
deriving DecidableEq, Repr

/-- The validation part of `CommentForm.onSubmit`: only a `.ok` result
reaches the `addDoc` call on the comments collection. -/
def submitComment (content postId authorId authorName : String) :
    Except CommentFieldErrors CreateCommentReq :=
  match validateCommentContent content with
  | some m => .error { content := some m }
  | none => .ok { content := content, postId := postId
                  authorId := authorId, authorName := authorName }

/- ### Create thunks: primary and alternate write paths
(postsSlice lines 104-168, commentsSlice lines 62-121) -/

/-- Timestamp value written with a document. -/
inductive WriteTs where
  /-- `serverTimestamp()` -/
  | server
  /-- `new Date().toISOString()` computed on the client -/
  | clientIso
deriving DecidableEq, Repr

/-- A write attempted against the store, in order of issue. -/
inductive StoreWrite where
  /-- `addDoc(collection, data)` — the store generates the id. -/
  | addDocTo (coll : String) (createdAt updatedAt : WriteTs)
  /-- `setDoc(doc(collection), data)` — `docId` generated on the client. -/
  | setDocAt (coll : String) (docId : String) (createdAt updatedAt : WriteTs)
deriving DecidableEq, Repr

/-- Outcome and attempted writes of `createPost` (lines 126-167).
`primaryResult` is the oracle of `addDoc` raced with the 30 s timeout
(`.ok id` = resolved document id), `altResult` the oracle of the alternate
`setDoc`, `altId` the client-generated id `doc(collection(db,'posts')).id`. -/
def createPostModel (primaryResult : Except JsError String)
    (altResult : Except JsError Unit) (altId : String) :
    List StoreWrite × Except JsError String :=
  match primaryResult with
  | .ok docId => ([.addDocTo "posts" .server .server], .ok docId)
  | .error primaryError =>
      match altResult with
      | .ok _ =>
          ([.addDocTo "posts" .server .server, .setDocAt "posts" altId .clientIso .clientIso],
            .ok altId)
      | .error _alternativeError =>
          ([.addDocTo "posts" .server .server, .setDocAt "posts" altId .clientIso .clientIso],
            .error primaryError)

/-- Outcome and attempted writes of `createComment` (commentsSlice lines
79-111); structurally identical to `createPostModel` on the `comments`
collection. -/
def createCommentModel (primaryResult : Except JsError String)
    (altResult : Except JsError Unit) (altId : String) :
    List StoreWrite × Except JsError String :=
  match primaryResult with
  | .ok docId => ([.addDocTo "comments" .server .server], .ok docId)
  | .error primaryError =>
      match altResult with
      | .ok _ =>
          ([.addDocTo "comments" .server .server,
            .setDocAt "comments" altId .clientIso .clientIso], .ok altId)
      | .error _alternativeError =>
          ([.addDocTo "comments" .server .server,
            .setDocAt "comments" altId .clientIso .clientIso], .error primaryError)

/- ### Spec-side sort value (for the refinement comparison of the sort key)

The specification asserts that a missing or unparseable `createdAt` "is
given sort value 0"; this definition follows those words, to be compared
with `sortKey`, which is translated from the comparator in the source. -/

/-- Modelled from the spec: "a post whose createdAt is missing or
unparseable is given sort value 0". -/
def specSortValue : CreatedAt → Int
  | .iso m => m
  | .str _ parsed => parsed.getD 0
  | .num n => n
  | .tsObj m => m
  | .missing => 0

/- ### Concrete states and stores used to evaluate the model -/

def p0 : Post :=
  { id := "p1", title := "Hello World!!", content := "content content!", tags := ["x"]
    likes := 0, authorId := "a", authorName := "Anna"
    createdAt := .missing, updatedAt := .missing }

/-- Post `p1` cached with zero likes, not yet liked by the user. -/
def s0 : PostsState :=
  { posts := [p0], likedPostIds := [], loading := false, error := none }

/-- Post `p1` cached with zero likes, already liked by the user. -/
def s2 : PostsState :=
  { posts := [p0], likedPostIds := ["p1"], loading := false, error := none }

/-- Post `p1` cached with three likes, already liked by the user. -/
def s2w : PostsState :=
  { posts := [{ p0 with likes := 3 }], likedPostIds := ["p1"], loading := false, error := none }

def c0 : Comment :=
  { id := "c1", content := "hello", postId := "p1", authorId := "b", authorName := "B"
    createdAt := .missing, updatedAt := .missing }

def initialCommentsState : CommentsState :=
  { commentsByPost := [], loading := false, error := none }

/-- Combined state: post `p1` cached, liked, with a non-empty comment bucket. -/
def app0 : AppState :=
  { postsState := s2
    commentsState := { commentsByPost := [("p1", [c0])], loading := false, error := none } }

def annaDoc : RawDoc :=
  { id := "d1", title := "t", content := "c", tagsField := some ["x"], likesField := .num 3
    authorId := "a", authorName := "Anna", createdAt := .fsTimestamp 5, updatedAt := .absent }

/-- Store in which the exact-match filtered query finds nothing but the
unfiltered collection holds `annaDoc`. -/
def storeC5 : FireQuery → Except JsError (List RawDoc) :=
  fun q => if q.constraints = [] then .ok [annaDoc] else .ok []

def docT (i : String) (m : Int) : RawDoc :=
  { id := i, title := "t", content := "c", tagsField := none, likesField := .nonNumber
    authorId := "a", authorName := "A", createdAt := .fsTimestamp m, updatedAt := .absent }

/-- Store answering every query with two documents in ascending `createdAt`
order. -/
def store4 : FireQuery → Except JsError (List RawDoc) := fun _ => .ok [docT "a" 1, docT "b" 2]

/-- The result `fetchPosts` computes against `store4`. -/
def l4 : List Post := [docToPost (docT "b" 2), docToPost (docT "a" 1)]

/-- Store failing every query with an index-required error. -/
def storeErrIdx : FireQuery → Except JsError (List RawDoc) :=
  fun _ => .error ⟨"The query requires an index"⟩

def storeCErrIdx : FireQuery → Except JsError (List RawCommentDoc) :=
  fun _ => .error ⟨"The query requires an index"⟩

/-- Store failing every query with a non-index error. -/
def storeBad : FireQuery → Except JsError (List RawDoc) := fun _ => .error ⟨"permission-denied"⟩

/-- Update payload carrying a negative `likes` value. -/
def updNeg : PostUpdates := { likes := some (-1) }

/-- A user who has liked every post. -/
def likedAll : String → Bool := fun _ => true

/- ### Helper lemmas -/

lemma updateFirstPost_roundtrip (pid : String) (f g : Post → Post)
    (hid : ∀ p, (f p).id = p.id) :
    ∀ l : List Post, (∀ p ∈ l, p.id = pid → g (f p) = p) →
      updateFirstPost pid g (updateFirstPost pid f l) = l
  | [], _ => rfl
  | p :: ps, h => by
    by_cases hp : p.id = pid
    · have hfid : (f p).id = pid := by rw [hid p, hp]
      simp [updateFirstPost, hp, hfid, h p (List.mem_cons_self p ps) hp]
    · simp only [updateFirstPost, if_neg hp, List.cons.injEq, true_and]
      exact updateFirstPost_roundtrip pid f g hid ps
        fun q hq hq' => h q (List.mem_cons_of_mem p hq) hq'

lemma mem_updateFirstPost {pid : String} {f : Post → Post} :
    ∀ {l : List Post} {p : Post}, p ∈ updateFirstPost pid f l →
      p ∈ l ∨ ∃ q ∈ l, p = f q := by
  intro l
  induction l with
  | nil => intro p h; simp [updateFirstPost] at h
  | cons q qs ih =>
    intro p h
    by_cases hq : q.id = pid
    · rw [updateFirstPost, if_pos hq] at h
      rcases List.mem_cons.mp h with h | h
      · exact .inr ⟨q, List.mem_cons_self q qs, h⟩
      · exact .inl (List.mem_cons_of_mem q h)
    · rw [updateFirstPost, if_neg hq] at h
      rcases List.mem_cons.mp h with h | h
      · exact .inl (h ▸ List.mem_cons_self q qs)
      · rcases ih h with h' | ⟨r, hr, hpr⟩
        · exact .inl (List.mem_cons_of_mem q h')
        · exact .inr ⟨r, List.mem_cons_of_mem q hr, hpr⟩

lemma mem_addIfAbsent {x pid : String} {l : List String} :
    x ∈ addIfAbsent pid l ↔ x ∈ l ∨ x = pid := by
  unfold addIfAbsent
  by_cases h : pid ∈ l
  · rw [if_pos h]
    exact ⟨.inl, fun hx => hx.elim id fun he => he ▸ h⟩
  · rw [if_neg h]
    simp

lemma addIfAbsent_nodup {pid : String} {l : List String} (h : l.Nodup) :
    (addIfAbsent pid l).Nodup := by
  unfold addIfAbsent
  by_cases hm : pid ∈ l
  · simpa [hm] using h
  · rw [if_neg hm, List.nodup_append]
    exact ⟨h, List.nodup_singleton pid,
      fun a ha hb => hm ((List.mem_singleton.mp hb) ▸ ha)⟩

lemma filter_addIfAbsent_of_not_mem {pid : String} {l : List String} (h : pid ∉ l) :
    (addIfAbsent pid l).filter (· ≠ pid) = l := by
  unfold addIfAbsent
  rw [if_neg h, List.filter_append]
  have h1 : l.filter (fun x => x ≠ pid) = l :=
    List.filter_eq_self.mpr fun a ha => by
      simp only [ne_eq, decide_eq_true_eq]
      exact fun he => h (he ▸ ha)
  have h2 : [pid].filter (fun x => x ≠ pid) = [] := by simp
  rw [h1, h2, List.append_nil]

lemma likes_nonneg_updateFirst {l : List Post} {pid : String} {f : Post → Post}
    (hnn : ∀ p ∈ l, 0 ≤ p.likes) (hf : ∀ p ∈ l, 0 ≤ (f p).likes) :
    ∀ p ∈ updateFirstPost pid f l, 0 ≤ p.likes := by
  intro p hp
  rcases mem_updateFirstPost hp with h | ⟨q, hq, rfl⟩
  · exact hnn p h
  · exact hf q hq

lemma fetchLikedStatesPayload_sublist (posts : List Post) (liked : String → Bool) :
    (fetchLikedStatesPayload posts liked).Sublist (posts.map Post.id) := by
  have h : ((posts.map fun p => if liked p.id then some p.id else none).filterMap
      fun x => x).Sublist (posts.map Post.id) := by
    induction posts with
    | nil => simp
    | cons p ps ih =>
      by_cases hl : liked p.id
      · simpa [hl, List.filterMap_cons] using ih.cons₂ p.id
      · simpa [hl, List.filterMap_cons] using ih.cons p.id
  exact (List.filter_sublist _).trans h

lemma lookup_filter_self (pid : String) :
    ∀ l : List (String × List Comment),
      (l.filter fun kv => kv.1 ≠ pid).lookup pid = none
  | [] => rfl
  | ⟨k, b⟩ :: l => by
    rw [List.filter_cons]
    by_cases h : k = pid
    · rw [if_neg (by simp [h])]
      exact lookup_filter_self pid l
    · rw [if_pos (by simp [h])]
      have hb : (pid == k) = false := beq_eq_false_iff_ne.mpr fun he => h he.symm
      simp only [List.lookup, hb]
      exact lookup_filter_self pid l

lemma lookup_filter_other {q pid : String} (hq : q ≠ pid) :
    ∀ l : List (String × List Comment),
      (l.filter fun kv => kv.1 ≠ pid).lookup q = l.lookup q
  | [] => rfl
  | ⟨k, b⟩ :: l => by
    rw [List.filter_cons]
    by_cases h : k = pid
    · rw [if_neg (by simp [h])]
      have hb : (q == k) = false := beq_eq_false_iff_ne.mpr fun he => hq (he.trans h)
      rw [lookup_filter_other hq l]
      simp only [List.lookup, hb]
    · rw [if_pos (by simp [h])]
      simp only [List.lookup]
      cases hqk : (q == k) with
      | true => rfl
      | false => exact lookup_filter_other hq l

lemma strTruthy_jsLower (x : String) : strTruthy (jsLower x) = strTruthy x := by
  cases x with
  | mk data => cases data <;> simp [jsLower, strTruthy]

lemma strTruthy_term (o : Option String) :
    strTruthy (jsLower (jsTrim (o.getD ""))) = filterApplied o := by
  cases o with
  | none => decide
  | some s => simp [filterApplied, strTruthy_jsLower]

lemma clientSortPosts_sorted (l : List Post) : (clientSortPosts l).Sorted createdDesc :=
  List.sorted_insertionSort createdDesc l

lemma fetchPostsModel_ok_shape {store : FireQuery → Except JsError (List RawDoc)}
    {a t : Option String} {l : List Post}
    (h : fetchPostsModel store a t = .ok l) : ∃ r, l = clientSortPosts r := by
  unfold fetchPostsModel at h
  cases hs : fetchPostsGetSnapshot store a t with
  | error e => rw [hs] at h; cases h
  | ok snap =>
      rw [hs] at h
      exact ⟨_, (Except.ok.inj h).symm⟩

lemma validateTitle_isSome_iff (t : String) :
    (validateTitle t).isSome = true ↔ (jsLen t < 5 ∨ 100 < jsLen t) := by
  unfold validateTitle
  split_ifs with h1 h2 h3 <;> simp <;> omega

lemma validateContent_isSome_iff (c : String) :
    (validateContent c).isSome = true ↔ (jsLen c < 10 ∨ 5000 < jsLen c) := by
  unfold validateContent
  split_ifs with h1 h2 h3 <;> simp <;> omega

lemma validateTags_isSome_iff (tags : List String) :
    (validateTags tags).isSome = true ↔
      (tags = [] ∨ 10 < tags.length ∨ ∃ tag ∈ tags, strTruthy (jsTrim tag) = false) := by
  unfold validateTags
  split_ifs with h1 h2 h3
  · simp only [Option.isSome_some, true_iff]
    exact Or.inl (List.length_eq_zero.mp (by omega))
  · simp only [Option.isSome_some, true_iff]
    exact Or.inr (Or.inl h2)
  · simp only [Option.isSome_some, true_iff]
    obtain ⟨x, hx, hb⟩ := List.any_eq_true.mp h3
    exact Or.inr (Or.inr ⟨x, hx, by simpa using hb⟩)
  · simp only [Option.isSome_none, Bool.false_eq_true, false_iff]
    rintro (rfl | h | ⟨x, hx, hb⟩)
    · simp at h1
    · omega
    · exact h3 (List.any_eq_true.mpr ⟨x, hx, by simp [hb]⟩)

lemma revert_optimistic_posts (pid : String) (inc : Int) (b b' : Bool) (s : PostsState)
    (h : ∀ p ∈ s.posts, p.id = pid → max 0 (max 0 (p.likes + inc) - inc) = p.likes) :
    (revertOptimisticLike pid inc b (optimisticToggleLike pid inc b' s)).posts = s.posts := by
  show updateFirstPost pid (fun p => { p with likes := max 0 (p.likes - inc) })
      (updateFirstPost pid (applyLikeDelta inc) s.posts) = s.posts
  apply updateFirstPost_roundtrip pid (applyLikeDelta inc) _ (fun p => rfl) s.posts
  intro p hp hpid
  have hlk := h p hp hpid
  cases p with
  | mk i ti co tg lk ai an ca ua =>
      simp only [applyLikeDelta] at hlk ⊢
      simp only [Post.mk.injEq, and_true, true_and]
      exact hlk

lemma revert_optimistic_liked_unlike (pid : String) (inc : Int) (s : PostsState)
    (hm : pid ∈ s.likedPostIds) :
    ∀ x, x ∈ (revertOptimisticLike pid inc false
        (optimisticToggleLike pid inc false s)).likedPostIds ↔ x ∈ s.likedPostIds := by
  intro x
  show x ∈ addIfAbsent pid (s.likedPostIds.filter (· ≠ pid)) ↔ x ∈ s.likedPostIds
  rw [mem_addIfAbsent, List.mem_filter]
  constructor
  · rintro (⟨hx, _⟩ | rfl)
    · exact hx
    · exact hm
  · intro hx
    by_cases hxp : x = pid
    · exact .inr hxp
    · exact .inl ⟨hx, by simp [hxp]⟩

lemma revert_optimistic_liked_like (pid : String) (s : PostsState)
    (hm : pid ∉ s.likedPostIds) (inc : Int) :
    (revertOptimisticLike pid inc true
        (optimisticToggleLike pid inc true s)).likedPostIds = s.likedPostIds := by
  show (addIfAbsent pid s.likedPostIds).filter (· ≠ pid) = s.likedPostIds
  exact filter_addIfAbsent_of_not_mem hm

/- ### Claims -/

/-- C1: the claim asserts that after a successful like/unlike sequence the
cached counter equals its initial value plus the net toggle delta — in
particular that one successful like adds exactly 1.  Evaluating the code at
the failing input (post `p1` with 0 likes, not yet liked, one successful
like) shows the cached counter becomes 2, because `toggleLike.fulfilled`
re-applies the same increment that `optimisticToggleLike` already applied,
while the store-side write of the thunk is an atomic increment by 1. -/
theorem c1_single_like_double_counts :
    (handleToggleLikeSuccess "p1" s0).posts.map Post.likes = [2] ∧
      "p1" ∈ (handleToggleLikeSuccess "p1" s0).likedPostIds ∧
      (handleToggleLikeSuccess "p1" s0).posts.map Post.likes ≠ [1] := by decide

/-- C2 counterexample: with a cached counter of 0 and the post already
liked, a failed unlike leaves the counter at 1, not at its value 0 from
before the optimistic update (the optimistic decrement was clamped at zero
and the revert adds the increment back unconditionally). -/
theorem c2_cex_failed_unlike_at_zero :
    (handleToggleLikeFailure "p1" s2).posts.map Post.likes = [1] ∧
      s2.posts.map Post.likes = [0] := by decide

/-- C2 (amended): after a failed toggle the revert restores the posts list
and the liked-membership exactly, provided every cached likes counter is
non-negative and, when the toggle was an unlike, the toggled post's counter
was at least 1 (so that the optimistic decrement was not clamped at 0). -/
theorem c2_revert_restores (s : PostsState) (pid : String)
    (hnn : ∀ p ∈ s.posts, 0 ≤ p.likes)
    (hpos : pid ∈ s.likedPostIds → ∀ p ∈ s.posts, p.id = pid → 1 ≤ p.likes) :
    (handleToggleLikeFailure pid s).posts = s.posts ∧
      ∀ x, x ∈ (handleToggleLikeFailure pid s).likedPostIds ↔ x ∈ s.likedPostIds := by
  by_cases hm : pid ∈ s.likedPostIds
  · have hd : decide (pid ∈ s.likedPostIds) = true := by simp [hm]
    have hrw : handleToggleLikeFailure pid s =
        revertOptimisticLike pid (-1) false (optimisticToggleLike pid (-1) false s) := by
      simp [handleToggleLikeFailure, hd]
    rw [hrw]
    refine ⟨revert_optimistic_posts pid (-1) false false s ?_,
      revert_optimistic_liked_unlike pid (-1) s hm⟩
    intro p hp hpid
    have h1 := hpos hm p hp hpid
    omega
  · have hd : decide (pid ∈ s.likedPostIds) = false := by simp [hm]
    have hrw : handleToggleLikeFailure pid s =
        revertOptimisticLike pid 1 true (optimisticToggleLike pid 1 true s) := by
      simp [handleToggleLikeFailure, hd]
    rw [hrw]
    refine ⟨revert_optimistic_posts pid 1 true true s ?_, ?_⟩
    · intro p hp _
      have h1 := hnn p hp
      omega
    · rw [revert_optimistic_liked_like pid s hm 1]
      exact fun x => Iff.rfl

/-- C2 witness: with three likes and the post liked, a failed unlike is
reverted exactly. -/
theorem c2_revert_restores_witness :
    (handleToggleLikeFailure "p1" s2w).posts = s2w.posts ∧
      ("p1" ∈ (handleToggleLikeFailure "p1" s2w).likedPostIds ↔ "p1" ∈ s2w.likedPostIds) := by
  have h := c2_revert_restores s2w "p1" (by decide) (fun _ => by decide)
  exact ⟨h.1, h.2 "p1"⟩

/-- C3 counterexample: the one operation that runs on a successful delete
(`deletePost.fulfilled`) removes the post and its liked id but leaves the
comment bucket of the deleted post in place: `clearCommentsForPost` is a
separate action of the other slice and no code path dispatches it. -/
theorem c3_cex_bucket_survives_delete :
    (deletePostFulfilledApp "p1" app0).commentsState.commentsByPost.lookup "p1" = some [c0] ∧
      (deletePostFulfilledApp "p1" app0).postsState.posts = [] ∧
      (deletePostFulfilledApp "p1" app0).postsState.likedPostIds = [] := by decide

/-- C3 (amended): `deletePost.fulfilled` removes the post from the posts
cache and its id from `likedPostIds` in one operation but leaves the
comments cache untouched; the `commentsByPost` bucket is removed only by
the separate `clearCommentsForPost` action, which removes exactly that
bucket and which the delete flow never dispatches. -/
theorem c3_delete_and_clear_are_separate (s : AppState) (pid : String) :
    (∀ p ∈ (deletePostFulfilledApp pid s).postsState.posts, p.id ≠ pid) ∧
      pid ∉ (deletePostFulfilledApp pid s).postsState.likedPostIds ∧
      (deletePostFulfilledApp pid s).commentsState = s.commentsState ∧
      (clearCommentsForPost pid s.commentsState).commentsByPost.lookup pid = none ∧
      ∀ q, q ≠ pid →
        (clearCommentsForPost pid s.commentsState).commentsByPost.lookup q =
          s.commentsState.commentsByPost.lookup q := by
  refine ⟨?_, ?_, rfl, lookup_filter_self pid _, fun q hq => lookup_filter_other hq _⟩
  · intro p hp
    have h := List.mem_filter.mp hp
    simpa using h.2
  · intro hmem
    have h := List.mem_filter.mp hmem
    simp at h

/-- C3 witness: concrete instance of the amended claim. -/
theorem c3_delete_and_clear_are_separate_witness :
    (deletePostFulfilledApp "p1" app0).commentsState = app0.commentsState ∧
      (clearCommentsForPost "p1" app0.commentsState).commentsByPost.lookup "p1" = none := by
  have h := c3_delete_and_clear_are_separate app0 "p1"
  exact ⟨h.2.2.1, h.2.2.2.1⟩

/-- C4 counterexample: in the comparator translated from the code, a
present but unparseable `createdAt` string is ternary-selected into
`new Date(s).getTime()`, which is NaN (`none`), not the sort value 0 the
claim assigns; `specSortValue`, written from the spec's words, gives 0. -/
theorem c4_cex_unparseable_is_nan :
    sortKey (CreatedAt.str "not-a-date" none) = none ∧
      specSortValue (CreatedAt.str "not-a-date" none) = 0 ∧
      sortKey (CreatedAt.str "not-a-date" none) ≠
        some (specSortValue (CreatedAt.str "not-a-date" none)) := by decide

/-- C4 (amended): every list `fetchPosts` returns is the client-side sort
of some list, hence sorted by `createdAt` descending whenever every
element's comparator value is defined (no NaN, i.e. no non-empty
unparseable timestamp string); a missing (falsy) `createdAt` has sort value
0 and therefore sorts after any positively-timestamped post. -/
theorem c4_fetch_output_sorted_desc (store : FireQuery → Except JsError (List RawDoc))
    (a t : Option String) (l : List Post)
    (h : fetchPostsModel store a t = .ok l)
    (hdef : ∀ p ∈ l, (sortKey p.createdAt).isSome = true) :
    l.Sorted createdDesc ∧ ∀ p ∈ l, p.createdAt = CreatedAt.missing → sortKeyD p = 0 := by
  obtain ⟨r, rfl⟩ := fetchPostsModel_ok_shape h
  refine ⟨clientSortPosts_sorted r, ?_⟩
  intro p _ hp
  simp [sortKeyD, sortKey, hp, strTruthy]

/-- C4 witness: a store answering in ascending order; the pipeline returns
the documents sorted descending. -/
theorem c4_fetch_output_sorted_desc_witness :
    fetchPostsModel store4 none none = .ok l4 ∧ l4.Sorted createdDesc := by
  have h := c4_fetch_output_sorted_desc store4 none none l4 (by decide) (by decide)
  exact ⟨by decide, h.1⟩

/-- C5: when a filter is applied and the exact-match query yields zero
posts, the whole unfiltered collection is fetched and filtered client-side;
a post is kept iff, for each present filter, the lowercased author name
(resp. some lowercased tag) starts with the lowercased trimmed filter. -/
theorem c5_fallback_prefix_filter (store : FireQuery → Except JsError (List RawDoc))
    (a t : Option String) (allDocs : List RawDoc)
    (hA : (filterApplied a || filterApplied t) = true)
    (hEmpty : fetchPostsGetSnapshot store a t = .ok [])
    (hAll : store ⟨"posts", [], false⟩ = .ok allDocs) :
    fetchPostsModel store a t =
        .ok (clientSortPosts ((allDocs.map docToPost).filter (fallbackMatch a t))) ∧
      (∀ p, p ∈ clientSortPosts ((allDocs.map docToPost).filter (fallbackMatch a t)) ↔
        p ∈ allDocs.map docToPost ∧ fallbackMatch a t p = true) ∧
      ∀ p, fallbackMatch a t p = true ↔
        ((filterApplied a = true →
            jsStartsWith (jsLower p.authorName) (jsLower (jsTrim (a.getD ""))) = true) ∧
          (filterApplied t = true →
            (p.tags.any fun tg => jsStartsWith (jsLower tg) (jsLower (jsTrim (t.getD "")))) =
              true)) := by
  refine ⟨?_, ?_, ?_⟩
  · unfold fetchPostsModel
    rw [hEmpty]
    simp [hA, hAll]
  · intro p
    unfold clientSortPosts
    rw [(List.perm_insertionSort createdDesc
      ((allDocs.map docToPost).filter (fallbackMatch a t))).mem_iff]
    exact List.mem_filter
  · intro p
    have ha' := strTruthy_term a
    have ht' := strTruthy_term t
    unfold fallbackMatch
    cases hfa : filterApplied a <;> cases hft : filterApplied t <;>
      simp [hfa, hft, ha', ht', Bool.and_eq_true]

/-- C5 witness: with filter "ann" and no exact match, the fallback returns
the post whose author is "Anna". -/
theorem c5_fallback_prefix_filter_witness :
    fetchPostsModel storeC5 (some "ann") none = .ok [docToPost annaDoc] ∧
      (docToPost annaDoc).authorName = "Anna" := by
  have h := c5_fallback_prefix_filter storeC5 (some "ann") none [annaDoc]
    (by decide) (by decide) (by decide)
  refine ⟨?_, by decide⟩
  rw [h.1]
  decide

/-- C6: in both fetch pipelines exactly the index-required error class (a
message containing "index" or "FAILED_PRECONDITION") makes the thunk
re-issue the same constraints without the sort clause; any other error
propagates out of the thunk, and the rejected reducers mark the fetch as
failed (loading false, error message set). -/
theorem c6_index_fallback_semantics :
    ∀ (pstore : FireQuery → Except JsError (List RawDoc))
      (cstore : FireQuery → Except JsError (List RawCommentDoc))
      (a t : Option String) (pid : String) (e : JsError) (msg : Option String)
      (ps : PostsState) (cs : CommentsState),
      (pstore ⟨"posts", baseConstraints a t, true⟩ = .error e →
        (isIndexRequiredError e = true →
          fetchPostsGetSnapshot pstore a t = pstore ⟨"posts", baseConstraints a t, false⟩) ∧
        (isIndexRequiredError e = false → fetchPostsModel pstore a t = .error e)) ∧
      (cstore ⟨"comments", [.postIdEq pid], true⟩ = .error e →
        (isIndexRequiredError e = true →
          fetchCommentsGetSnapshot cstore pid = cstore ⟨"comments", [.postIdEq pid], false⟩) ∧
        (isIndexRequiredError e = false → fetchCommentsModel cstore pid = .error e)) ∧
      ((fetchPostsRejected msg ps).loading = false ∧
        (fetchPostsRejected msg ps).error.isSome = true) ∧
      ((fetchCommentsRejected msg cs).loading = false ∧
        (fetchCommentsRejected msg cs).error.isSome = true) := by
  intro pstore cstore a t pid e msg ps cs
  refine ⟨fun he => ⟨fun hi => ?_, fun hni => ?_⟩,
    fun he => ⟨fun hi => ?_, fun hni => ?_⟩, ⟨rfl, rfl⟩, ⟨rfl, rfl⟩⟩
  · simp only [fetchPostsGetSnapshot, he]
    simp [hi]
  · simp [fetchPostsModel, fetchPostsGetSnapshot, he, hni]
  · simp only [fetchCommentsGetSnapshot, he]
    simp [hi]
  · simp [fetchCommentsModel, fetchCommentsGetSnapshot, he, hni]

/-- C6 witness: an index-required failure retries without the sort clause;
a permission failure propagates; the rejected reducer resets loading. -/
theorem c6_index_fallback_semantics_witness :
    fetchPostsGetSnapshot storeErrIdx none none = storeErrIdx ⟨"posts", [], false⟩ ∧
      fetchPostsModel storeBad none none = .error ⟨"permission-denied"⟩ ∧
      (fetchPostsRejected (some "boom") initialPostsState).loading = false := by
  have hIdx := c6_index_fallback_semantics storeErrIdx storeCErrIdx none none "p"
    ⟨"The query requires an index"⟩ (some "boom") initialPostsState initialCommentsState
  have hOther := c6_index_fallback_semantics storeBad storeCErrIdx none none "p"
    ⟨"permission-denied"⟩ (some "boom") initialPostsState initialCommentsState
  exact ⟨(hIdx.1 (by decide)).1 (by decide), (hOther.1 (by decide)).2 (by decide),
    hIdx.2.2.1.1⟩

/-- C7: a post whose title is outside 5-100 characters, whose content is
outside 10-5000 characters, or whose tag list is empty, longer than 10, or
contains a blank tag, is rejected by `submitPost` before any store write
(the result is an error, and only an ok result reaches the `createPost`
dispatch), with the error of each field present exactly when that field
offends; a comment outside 5-1000 characters is likewise rejected by
`submitComment` before any store write. -/
theorem c7_validation_field_scoped :
    ∀ (title content : String) (tags : List String) (aid aname : String)
      (ccontent cpid cuid cuname : String),
      ((jsLen title < 5 ∨ 100 < jsLen title ∨ jsLen content < 10 ∨ 5000 < jsLen content ∨
          tags = [] ∨ 10 < tags.length ∨ ∃ tag ∈ tags, strTruthy (jsTrim tag) = false) →
        submitPost title content tags aid aname =
          .error (postSchemaCheck title content tags)) ∧
      ((postSchemaCheck title content tags).title.isSome = true ↔
        (jsLen title < 5 ∨ 100 < jsLen title)) ∧
      ((postSchemaCheck title content tags).content.isSome = true ↔
        (jsLen content < 10 ∨ 5000 < jsLen content)) ∧
      ((postSchemaCheck title content tags).tags.isSome = true ↔
        (tags = [] ∨ 10 < tags.length ∨ ∃ tag ∈ tags, strTruthy (jsTrim tag) = false)) ∧
      ((jsLen ccontent < 5 ∨ 1000 < jsLen ccontent) →
        ∃ m, submitComment ccontent cpid cuid cuname = .error { content := some m }) := by
  intro title content tags aid aname ccontent cpid cuid cuname
  refine ⟨fun h => ?_, validateTitle_isSome_iff title, validateContent_isSome_iff content,
    validateTags_isSome_iff tags, fun h => ?_⟩
  · have hsome : (validateTitle title).isSome = true ∨ (validateContent content).isSome = true ∨
        (validateTags tags).isSome = true := by
      rcases h with h | h | h | h | h | h | h
      · exact .inl ((validateTitle_isSome_iff title).mpr (.inl h))
      · exact .inl ((validateTitle_isSome_iff title).mpr (.inr h))
      · exact .inr (.inl ((validateContent_isSome_iff content).mpr (.inl h)))
      · exact .inr (.inl ((validateContent_isSome_iff content).mpr (.inr h)))
      · exact .inr (.inr ((validateTags_isSome_iff tags).mpr (.inl h)))
      · exact .inr (.inr ((validateTags_isSome_iff tags).mpr (.inr (.inl h))))
      · exact .inr (.inr ((validateTags_isSome_iff tags).mpr (.inr (.inr h))))
    have hcond : ((postSchemaCheck title content tags).title.isSome ||
        (postSchemaCheck title content tags).content.isSome ||
        (postSchemaCheck title content tags).tags.isSome) = true := by
      show ((validateTitle title).isSome || (validateContent content).isSome ||
        (validateTags tags).isSome) = true
      rcases hsome with h' | h' | h' <;> simp [h']
    simp [submitPost, hcond]
  · unfold submitComment validateCommentContent
    split_ifs with h1 h2 h3
    · exact ⟨_, rfl⟩
    · exact ⟨_, rfl⟩
    · exact ⟨_, rfl⟩
    · rcases h with h | h <;> omega

/-- C7 witness: a 4-character title is rejected with an error on the title
field only; a 3-character comment is rejected. -/
theorem c7_validation_field_scoped_witness :
    submitPost "abcd" "long enough content" ["x"] "a" "A" =
        Except.error (postSchemaCheck "abcd" "long enough content" ["x"]) ∧
      (postSchemaCheck "abcd" "long enough content" ["x"]).title.isSome = true ∧
      (postSchemaCheck "abcd" "long enough content" ["x"]).content = none ∧
      (postSchemaCheck "abcd" "long enough content" ["x"]).tags = none ∧
      ∃ m, submitComment "abc" "p" "u" "U" = .error { content := some m } := by
  have h := c7_validation_field_scoped "abcd" "long enough content" ["x"] "a" "A"
    "abc" "p" "u" "U"
  exact ⟨h.1 (Or.inl (by decide)), by decide, by decide, by decide,
    h.2.2.2.2 (Or.inl (by decide))⟩

/-- C8: in both create thunks the primary `addDoc` write (with server
timestamps) is attempted first and alone when it succeeds; the alternate
`setDoc` with a client-generated id and client timestamps is attempted only
after the primary throws; and when both throw, the error surfaced is the
primary one, whatever the alternate error was. -/
theorem c8_primary_then_alternate :
    ∀ (pr : Except JsError String) (ar : Except JsError Unit) (altId docId : String)
      (pe ae : JsError),
      (pr = .ok docId →
        createPostModel pr ar altId = ([.addDocTo "posts" .server .server], .ok docId) ∧
        createCommentModel pr ar altId =
          ([.addDocTo "comments" .server .server], .ok docId)) ∧
      (pr = .error pe →
        (createPostModel pr ar altId).1 =
          [.addDocTo "posts" .server .server,
            .setDocAt "posts" altId .clientIso .clientIso] ∧
        (createCommentModel pr ar altId).1 =
          [.addDocTo "comments" .server .server,
            .setDocAt "comments" altId .clientIso .clientIso]) ∧
      (pr = .error pe → ar = .error ae →
        (createPostModel pr ar altId).2 = .error pe ∧
        (createCommentModel pr ar altId).2 = .error pe) := by
  intro pr ar altId docId pe ae
  refine ⟨fun h => ?_, fun h => ?_, fun h h' => ?_⟩
  · subst h
    exact ⟨rfl, rfl⟩
  · subst h
    cases ar <;> exact ⟨rfl, rfl⟩
  · subst h
    subst h'
    exact ⟨rfl, rfl⟩

/-- C8 witness: with both paths failing, the surfaced error is the primary
one and both writes were attempted in order. -/
theorem c8_primary_then_alternate_witness :
    (createPostModel (.error ⟨"primary boom"⟩) (.error ⟨"alt boom"⟩) "x").2 =
        .error ⟨"primary boom"⟩ ∧
      (createPostModel (.error ⟨"primary boom"⟩) (.error ⟨"alt boom"⟩) "x").1 =
        [.addDocTo "posts" .server .server, .setDocAt "posts" "x" .clientIso .clientIso] := by
  have h := c8_primary_then_alternate (.error ⟨"primary boom"⟩) (.error ⟨"alt boom"⟩)
    "x" "d" ⟨"primary boom"⟩ ⟨"alt boom"⟩
  exact ⟨(h.2.2 rfl rfl).1, (h.2.1 rfl).1⟩

/-- C9 counterexample: `updatePost.fulfilled` spreads the update payload
over the post unchanged, so a payload carrying `likes = -1` drives a cached
counter negative even though every counter was non-negative before. -/
theorem c9_cex_update_accepts_negative_likes :
    (updatePostFulfilled "p1" updNeg s0).posts.map Post.likes = [-1] ∧
      s0.posts.map Post.likes = [0] := by decide

/-- C9 (amended): `fetchPosts` coerces a non-numeric likes field to 0;
`optimisticToggleLike`, `revertOptimisticLike` and `toggleLike.fulfilled`
preserve non-negativity of every cached counter; `updatePost.fulfilled`
preserves it provided the payload's likes field, when present, is
non-negative — which holds for the payload built by the app's only
dispatch site, `submitEditPost`, which floors likes at 0. -/
theorem c9_likes_nonnegative (d : RawDoc) (s : PostsState) (pid : String) (inc : Int)
    (b : Bool) (u : PostUpdates) (et ec : String) (etags : List String) (el : Int)
    (hnn : ∀ p ∈ s.posts, 0 ≤ p.likes) :
    (d.likesField = .nonNumber → (docToPost d).likes = 0) ∧
      (∀ p ∈ (optimisticToggleLike pid inc b s).posts, 0 ≤ p.likes) ∧
      (∀ p ∈ (revertOptimisticLike pid inc b s).posts, 0 ≤ p.likes) ∧
      (∀ p ∈ (toggleLikeFulfilled pid inc b s).posts, 0 ≤ p.likes) ∧
      ((∀ n, u.likes = some n → 0 ≤ n) →
        ∀ p ∈ (updatePostFulfilled pid u s).posts, 0 ≤ p.likes) ∧
      ∀ n, (editPostUpdates et ec etags el).likes = some n → 0 ≤ n := by
  refine ⟨fun h => by simp [docToPost, h], ?_, ?_, ?_, fun hu => ?_, fun n hn => ?_⟩
  · exact likes_nonneg_updateFirst hnn fun p _ => le_max_left 0 _
  · exact likes_nonneg_updateFirst hnn fun p _ => le_max_left 0 _
  · exact likes_nonneg_updateFirst hnn fun p _ => le_max_left 0 _
  · refine likes_nonneg_updateFirst hnn fun p hp => ?_
    cases hc : u.likes with
    | none => simpa [applyUpdates, hc] using hnn p hp
    | some n =>
        simp only [applyUpdates, hc, Option.getD_some]
        exact hu n hc
  · simp only [editPostUpdates] at hn
    rw [← Option.some.inj hn]
    exact le_max_left 0 el

/-- C9 witness: a non-numeric stored likes field maps to 0, and the
optimistically updated post keeps a non-negative counter. -/
theorem c9_likes_nonnegative_witness :
    (docToPost (docT "a" 1)).likes = 0 ∧
      (0 : Int) ≤ ({ p0 with likes := 1 } : Post).likes := by
  have h := c9_likes_nonnegative (docT "a" 1) s0 "p1" 1 true updNeg "t" "c" ["x"] (-7)
    (by decide)
  exact ⟨h.1 rfl, h.2.1 { p0 with likes := 1 } (by decide)⟩

/-- C10: every liked-set mutation of the posts slice preserves freedom from
duplicates: the appending reducers first test membership, the removals
filter every occurrence, and the `fetchLikedStates` payload is a sublist of
the ids of the posts it was computed from, hence duplicate-free whenever
those ids are. -/
theorem c10_liked_ids_nodup (s : PostsState) (pid : String) (inc : Int) (b : Bool)
    (posts : List Post) (liked : String → Bool) (hn : s.likedPostIds.Nodup) :
    (optimisticToggleLike pid inc b s).likedPostIds.Nodup ∧
      (revertOptimisticLike pid inc b s).likedPostIds.Nodup ∧
      (toggleLikeFulfilled pid inc b s).likedPostIds.Nodup ∧
      (deletePostFulfilled pid s).likedPostIds.Nodup ∧
      ((posts.map Post.id).Nodup →
        (fetchLikedStatesFulfilled (fetchLikedStatesPayload posts liked) s).likedPostIds.Nodup) := by
  have hupd : ∀ bb : Bool,
      (if bb then addIfAbsent pid s.likedPostIds
        else s.likedPostIds.filter (· ≠ pid)).Nodup := by
    intro bb
    cases bb
    · exact List.Nodup.filter _ hn
    · exact addIfAbsent_nodup hn
  refine ⟨hupd b, ?_, hupd b, List.Nodup.filter _ hn, fun hm => ?_⟩
  · show (if b then s.likedPostIds.filter (· ≠ pid)
      else addIfAbsent pid s.likedPostIds).Nodup
    cases b
    · exact addIfAbsent_nodup hn
    · exact List.Nodup.filter _ hn
  · show (fetchLikedStatesPayload posts liked).Nodup
    exact List.Nodup.sublist (fetchLikedStatesPayload_sublist posts liked) hm

/-- C10 witness: concrete instance of the preservation statement. -/
theorem c10_liked_ids_nodup_witness :
    (optimisticToggleLike "p1" 1 true s2).likedPostIds.Nodup ∧
      (fetchLikedStatesFulfilled (fetchLikedStatesPayload [p0] likedAll) s2).likedPostIds.Nodup := by
  have h := c10_liked_ids_nodup s2 "p1" 1 true [p0] likedAll (by decide)
  exact ⟨h.1, h.2.2.2.2 (by decide)⟩

end Blog
